import Mathlib

/-!
Verification of the whh32-back CRUD/auth core against its specification.

The JavaScript source is shallowly embedded: each service / repository
method becomes a pure Lean function, with the database modelled as an
explicit list-of-rows state that is threaded through the operations.
External cryptographic primitives (bcryptjs, jsonwebtoken) are modelled
symbolically by transparent structures that satisfy exactly the
input/output contract the code relies on (`compare p (hash p0) = true`
iff `p = p0`; a signature verifies iff it was produced over the same
payload with the same secret).  Token expiry and row timestamps
(`created_at` / `updated_at` / JWT `exp`) are not modelled: no property
below mentions them.
-/

namespace Whh32

/-! ## Symbolic model of bcryptjs (`bcrypt.hash` / `bcrypt.compare`) -/

/-- Symbolic bcrypt digest: an opaque value determined by the cost factor
and the hashed plaintext.  Models the contract of `bcryptjs`: `compare`
succeeds exactly on the original plaintext. -/
structure BcryptHash where
  cost : Nat
  hashed : String
deriving DecidableEq, Repr

/-- `bcrypt.hash(plain, cost)`. -/
def bcryptHash (plain : String) (cost : Nat) : BcryptHash :=
  ⟨cost, plain⟩

/-- `bcrypt.compare(plain, digest)`. -/
def bcryptCompare (plain : String) (digest : BcryptHash) : Bool :=
  digest.hashed == plain

/-! ## Symbolic model of jsonwebtoken (`jwt.sign` / `jwt.verify`) -/

/-- The claim set `AuthService.generateToken` embeds in a token:
`{ id, username, email }`. -/
structure JwtClaims where
  id : Nat
  username : String
  email : String
deriving DecidableEq, Repr

/-- Symbolic HMAC signature over a payload with a secret. -/
structure JwtSig where
  secret : String
  signedPayload : JwtClaims
deriving DecidableEq, Repr

/-- A signed token: payload plus signature. -/
structure JwtToken where
  payload : JwtClaims
  sig : JwtSig
deriving DecidableEq, Repr

/-- `jwt.sign(claims, secret)`. -/
def jwtSign (claims : JwtClaims) (secret : String) : JwtToken :=
  ⟨claims, ⟨secret, claims⟩⟩

/-- `jwt.verify(token, secret)`: succeeds iff the signature matches the
payload under the given secret. -/
def jwtVerify (secret : String) (token : JwtToken) : Option JwtClaims :=
  if token.sig = ⟨secret, token.payload⟩ then some token.payload else none

/-! ## Errors

`AppError(message, statusCode)` from `common/errors/AppError`. -/

structure AppError where
  message : String
  status : Nat
deriving DecidableEq, Repr

/-! ## User rows and the users table -/

/-- A persisted row of the `users` table.  `password` stores the bcrypt
digest; `lastLogin` is nullable. -/
structure StoredUser where
  id : Nat
  username : String
  email : String
  password : BcryptHash
  firstName : Option String
  lastName : Option String
  lastLogin : Option Nat
deriving DecidableEq, Repr

/-- A user object as returned to clients.  The `password` field is
`Option`al so that its deletion (`delete user.password` /
Prisma `select` without `password`) is observable: `none` means the
field is absent from the object. -/
structure PublicUser where
  id : Nat
  username : String
  email : String
  firstName : Option String
  lastName : Option String
  lastLogin : Option Nat
  password : Option BcryptHash
deriving DecidableEq, Repr

/-- The users table, as an ordered list of rows. -/
abbrev UserDb := List StoredUser

/-- JavaScript `x || null` on an optional string: `undefined` and the
empty string are both coerced to `null`. -/
def jsOrNull (o : Option String) : Option String :=
  match o with
  | some s => if s = "" then none else some s
  | none => none

/-- `UserRepository.usernameExists`. -/
def usernameExists (db : UserDb) (username : String) : Bool :=
  db.any (fun u => u.username == username)

/-- `UserRepository.emailExists`. -/
def emailExists (db : UserDb) (email : String) : Bool :=
  db.any (fun u => u.email == email)

/-- `UserRepository.findByUsername`. -/
def findByUsername (db : UserDb) (username : String) : Option StoredUser :=
  db.find? (fun u => u.username == username)

/-- Next identity value for an insert (`id` is server-generated and
unique: one more than the largest id in the table). -/
def nextUserId (db : UserDb) : Nat :=
  db.foldr (fun u acc => max u.id acc) 0 + 1

/-- Fields supplied to `UserRepository.create` by `AuthService.register`. -/
structure NewUserData where
  username : String
  email : String
  password : BcryptHash
  firstName : Option String
  lastName : Option String
deriving DecidableEq, Repr

/-- Projection of a stored row to the client-facing object after
`delete user.password` (equivalently Prisma's safe-field `select`). -/
def publicOfStored (u : StoredUser) : PublicUser :=
  { id := u.id, username := u.username, email := u.email,
    firstName := u.firstName, lastName := u.lastName,
    lastLogin := u.lastLogin, password := none }

/-- `UserRepository.create`: insert the row, return the created object
with the password field removed, together with the new table state. -/
def userCreate (db : UserDb) (data : NewUserData) : PublicUser × UserDb :=
  let row : StoredUser :=
    { id := nextUserId db, username := data.username, email := data.email,
      password := data.password, firstName := data.firstName,
      lastName := data.lastName, lastLogin := none }
  (publicOfStored row, db ++ [row])

/-! ## AuthService -/

/-- Registration input (`req.body` of `POST /auth/register`). -/
structure RegisterInput where
  username : String
  email : String
  password : String
  firstName : Option String
  lastName : Option String
deriving DecidableEq, Repr

/-- Successful result of `register` / `login`: `{ user, token }`. -/
structure AuthOk where
  user : PublicUser
  token : JwtToken
deriving DecidableEq, Repr

/-- `AuthService.generateToken(user)`: signs `{ id, username, email }`. -/
def generateToken (secret : String) (user : PublicUser) : JwtToken :=
  jwtSign { id := user.id, username := user.username, email := user.email } secret

/-- `AuthService.verifyToken(token)`: wraps `jwt.verify`, turning a
failure into `AppError('Invalid or expired token', 401)`. -/
def verifyToken (secret : String) (token : JwtToken) : Except AppError JwtClaims :=
  match jwtVerify secret token with
  | some claims => Except.ok claims
  | none => Except.error ⟨"Invalid or expired token", 401⟩

/-- `AuthService.register(userData)`: reject on taken username, then on
taken email; otherwise hash the password, persist the user and issue a
token over `{ id, username, email }`.  Returns the result together with
the resulting table state (unchanged on failure). -/
def register (secret : String) (db : UserDb) (input : RegisterInput) :
    Except AppError AuthOk × UserDb :=
  if usernameExists db input.username then
    (Except.error ⟨"Username already exists", 400⟩, db)
  else if emailExists db input.email then
    (Except.error ⟨"Email already exists", 400⟩, db)
  else
    let hashed := bcryptHash input.password 10
    let created := userCreate db
      { username := input.username, email := input.email, password := hashed,
        firstName := jsOrNull input.firstName, lastName := jsOrNull input.lastName }
    let token := generateToken secret created.1
    (Except.ok ⟨created.1, token⟩, created.2)

/-- `AuthService.login(username, password)`: look the user up by
username; if absent, or if the bcrypt comparison fails, fail with the
single undifferentiated `AppError('Invalid credentials', 401)`.  On
success update `last_login`, drop the password field and issue a token. -/
def login (secret : String) (db : UserDb) (username password : String)
    (now : Nat) : Except AppError AuthOk × UserDb :=
  match findByUsername db username with
  | none => (Except.error ⟨"Invalid credentials", 401⟩, db)
  | some user =>
    if bcryptCompare password user.password then
      let db' := db.map (fun u => if u.id == user.id then { u with lastLogin := some now } else u)
      let pub := publicOfStored user
      (Except.ok ⟨pub, generateToken secret pub⟩, db')
    else
      (Except.error ⟨"Invalid credentials", 401⟩, db)

/-! ## Item rows and the items table -/

/-- A persisted row of the `items` table.  `description` and `category`
are nullable; `userId` is the owning user's id. -/
structure Item where
  id : Nat
  name : String
  description : Option String
  price : ℚ
  category : Option String
  userId : Nat
deriving DecidableEq, Repr

/-- The items table, in the order the database returns rows. -/
abbrev ItemDb := List Item

/-- A partial-update payload (`req.body` of `PUT /items/:id`).  An outer
`none` means the key is absent (`undefined`); for the nullable columns
the inner `Option` distinguishes an explicit `null` from a string. -/
structure UpdatePayload where
  name : Option String
  description : Option (Option String)
  price : Option ℚ
  category : Option (Option String)
deriving DecidableEq, Repr

/-- `ItemsRepository.update` (Prisma variant, `items.repository.js`):
`name` and `price` are spread into the update set only when *truthy*
(`itemData.name && {...}`, `itemData.price && {...}`), so an empty-string
name or a zero price is dropped; `description` and `category` are
applied whenever they are not `undefined`
(`itemData.description !== undefined && {...}`). -/
def prismaApplyUpdate (row : Item) (d : UpdatePayload) : Item :=
  { row with
    name :=
      match d.name with
      | some s => if s ≠ "" then s else row.name
      | none => row.name,
    description :=
      match d.description with
      | some v => v
      | none => row.description,
    price :=
      match d.price with
      | some q => if q ≠ 0 then q else row.price
      | none => row.price,
    category :=
      match d.category with
      | some v => v
      | none => row.category }

/-- `BaseRepository.update` (SQL variants): the `SET` clause is built
from exactly the keys present in `data`, so every provided field is
applied and every omitted field is left untouched. -/
def sqlApplyUpdate (row : Item) (d : UpdatePayload) : Item :=
  { row with
    name :=
      match d.name with
      | some s => s
      | none => row.name,
    description :=
      match d.description with
      | some v => v
      | none => row.description,
    price :=
      match d.price with
      | some q => q
      | none => row.price,
    category :=
      match d.category with
      | some v => v
      | none => row.category }

/-! ## ItemsRepository / ItemsService -/

/-- `ItemsRepository.findByIdAndUserId(id, userId)`: the single combined
ownership lookup (`WHERE id = @id AND user_id = @userId`). -/
def findByIdAndUserId (db : ItemDb) (id userId : Nat) : Option Item :=
  db.find? (fun it => it.id == id && it.userId == userId)

/-- `ItemsRepository.update(id, data)`: update the row with the given id
and return it; `none` when no such row exists (Prisma `P2025`). -/
def itemsRepoUpdate (db : ItemDb) (id : Nat) (d : UpdatePayload) :
    Option Item × ItemDb :=
  match db.find? (fun it => it.id == id) with
  | none => (none, db)
  | some row =>
    let row' := prismaApplyUpdate row d
    (some row', db.map (fun it => if it.id == id then row' else it))

/-- `ItemsRepository.delete(id)`. -/
def itemsRepoDelete (db : ItemDb) (id : Nat) : ItemDb :=
  db.filter (fun it => !(it.id == id))

/-- `ItemsService.updateItem(id, itemData, userId)`: verify existence
and ownership via the combined lookup; fail with
`AppError('Item not found or unauthorized', 404)` before any mutation if
it misses; otherwise apply the partial update. -/
def updateItem (db : ItemDb) (id : Nat) (d : UpdatePayload) (userId : Nat) :
    Except AppError Item × ItemDb :=
  match findByIdAndUserId db id userId with
  | none => (Except.error ⟨"Item not found or unauthorized", 404⟩, db)
  | some _ =>
    match itemsRepoUpdate db id d with
    | (some row', db') => (Except.ok row', db')
    | (none, db') => (Except.error ⟨"Record not found", 500⟩, db')

/-- `ItemsService.deleteItem(id, userId)`: same
ownership-verify-then-act pattern as `updateItem`. -/
def deleteItem (db : ItemDb) (id : Nat) (userId : Nat) :
    Except AppError Bool × ItemDb :=
  match findByIdAndUserId db id userId with
  | none => (Except.error ⟨"Item not found or unauthorized", 404⟩, db)
  | some _ => (Except.ok true, itemsRepoDelete db id)

/-! ## Pagination (`findWithPagination`) -/

/-- The `pagination` object returned alongside a page of items. -/
structure Pagination where
  page : Nat
  limit : Nat
  total : Nat
  totalPages : Nat
deriving DecidableEq, Repr

/-- Result of `findWithPagination`. -/
structure PageResult where
  items : List Item
  pagination : Pagination
deriving DecidableEq, Repr

/-- `ItemsRepository.findWithPagination(page, limit)`:
`skip = (page - 1) * limit`, fetch at most `limit` rows at that offset,
count the whole table, and report
`totalPages = Math.ceil(total / limit)` (for natural `limit ≥ 1` this is
`(total + limit - 1) / limit`). -/
def findWithPagination (db : ItemDb) (page limit : Nat) : PageResult :=
  let skip := (page - 1) * limit
  let total := db.length
  { items := (db.drop skip).take limit,
    pagination :=
      { page := page, limit := limit, total := total,
        totalPages := (total + limit - 1) / limit } }

/-! ## Request validation (`validators/schemas.js` + `validate.middleware`)

The Joi schemas are embedded as functions collecting the list of
violation messages (`abortEarly: false` makes Joi report them all); the
middleware joins them with `', '` into a single 400 `AppError`. -/

/-- Typed body of `POST /items` after JSON parsing; `none` marks an
absent key. -/
structure CreateItemBody where
  name : Option String
  description : Option String
  price : Option ℚ
  category : Option String
deriving DecidableEq, Repr

/-- Violations of `name: Joi.string().min(3).max(100).required()`.
Joi's base string check rejects the empty string first
(`string.empty`, default message — the schema customizes only
`string.min`, `string.max` and `any.required`) and short-circuits the
min/max rules; otherwise the custom messages apply. -/
def nameViolations (name : Option String) : List String :=
  match name with
  | none => ["Item name is required"]
  | some s =>
    if s = "" then ["\"name\" is not allowed to be empty"]
    else if s.length < 3 then ["Item name must be at least 3 characters long"]
    else if s.length > 100 then ["Item name must not exceed 100 characters"]
    else []

/-- Violations of `description: Joi.string().max(500).optional()`
(default Joi messages; the empty string fails the base `string.empty`
check before the max rule). -/
def descriptionViolations (description : Option String) : List String :=
  match description with
  | none => []
  | some s =>
    if s = "" then ["\"description\" is not allowed to be empty"]
    else if s.length > 500 then
      ["\"description\" length must be less than or equal to 500 characters long"]
    else []

/-- Violations of `price: Joi.number().positive().precision(2).required()`
with the schema's custom messages.  Joi's `positive()` demands a value
strictly greater than zero; in convert mode `precision(2)` only rounds
and never rejects. -/
def priceViolations (price : Option ℚ) : List String :=
  match price with
  | none => ["Price is required"]
  | some q => if q ≤ 0 then ["Price must be a positive number"] else []

/-- Violations of `category: Joi.string().max(50).optional()`
(default Joi messages; the empty string fails the base `string.empty`
check before the max rule). -/
def categoryViolations (category : Option String) : List String :=
  match category with
  | none => []
  | some s =>
    if s = "" then ["\"category\" is not allowed to be empty"]
    else if s.length > 50 then
      ["\"category\" length must be less than or equal to 50 characters long"]
    else []

/-- All violations of `createItemSchema`, in schema key order, as
collected by `schema.validate(body, { abortEarly: false })`. -/
def createItemViolations (b : CreateItemBody) : List String :=
  nameViolations b.name ++ descriptionViolations b.description ++
    priceViolations b.price ++ categoryViolations b.category

/-- Joi convert-mode `precision(2)` rounding of the price (identity on
every value that already has at most two decimals). -/
def roundTo2 (q : ℚ) : ℚ :=
  (⌊q * 100 + 1 / 2⌋ : ℚ) / 100

/-- The converted body Joi hands back on success (`req.body = value`). -/
def convertCreateItemBody (b : CreateItemBody) : CreateItemBody :=
  { b with price := b.price.map roundTo2 }

/-- `ValidateMiddleware.validate(createItemSchema)` applied to a body:
on any violation, reject with a single
`AppError(messages joined by ', ', 400)`; otherwise pass the converted
body on. -/
def validateCreateItem (b : CreateItemBody) : Except AppError CreateItemBody :=
  let msgs := createItemViolations b
  if msgs = [] then Except.ok (convertCreateItemBody b)
  else Except.error ⟨String.intercalate ", " msgs, 400⟩

/-! ## SQL text construction (`BaseRepository`, PostgreSQL variant)

Each query-building method is embedded as a pure function returning the
SQL text and the out-of-band parameter list it would submit to
`database.query(text, params)`.  Whitespace inside the template
literals is normalised to single spaces. -/

/-- A value passed in a query's parameter array. -/
inductive SqlValue where
  | str (s : String)
  | num (q : ℚ)
  | null
deriving DecidableEq, Repr

/-- SQL text plus bound parameters, as handed to the driver. -/
structure SqlQuery where
  text : String
  params : List SqlValue
deriving DecidableEq, Repr

/-- `BaseRepository.findAll`. -/
def findAllQuery (tableName : String) : SqlQuery :=
  { text := "SELECT * FROM " ++ tableName, params := [] }

/-- `BaseRepository.findById(id)`. -/
def findByIdQuery (tableName : String) (id : ℚ) : SqlQuery :=
  { text := "SELECT * FROM " ++ tableName ++ " WHERE id = $1",
    params := [SqlValue.num id] }

/-- `BaseRepository.findByField(field, value)`: the *field name* is
interpolated into the text, the *value* is bound as `$1`. -/
def findByFieldQuery (tableName field : String) (value : SqlValue) : SqlQuery :=
  { text := "SELECT * FROM " ++ tableName ++ " WHERE " ++ field ++ " = $1",
    params := [value] }

/-- `BaseRepository.exists(field, value)`: same shape as
`findByField`. -/
def existsQuery (tableName field : String) (value : SqlValue) : SqlQuery :=
  { text := "SELECT EXISTS(SELECT 1 FROM " ++ tableName ++ " WHERE " ++
      field ++ " = $1)",
    params := [value] }

/-- `$1, $2, ...` placeholders for `n` values. -/
def placeholders (n : Nat) : String :=
  String.intercalate ", " ((List.range n).map (fun i => "$" ++ toString (i + 1)))

/-- `BaseRepository.create(data)`: column names come from the keys of
`data` and are interpolated; the values are bound positionally. -/
def createQuery (tableName : String) (data : List (String × SqlValue)) : SqlQuery :=
  { text := "INSERT INTO " ++ tableName ++ " (" ++
      String.intercalate ", " (data.map Prod.fst) ++ ") VALUES (" ++
      placeholders data.length ++ ") RETURNING *",
    params := data.map Prod.snd }

/-- `BaseRepository.update(id, data)`: the `SET` clause interpolates the
keys of `data`; the values and then the id are bound positionally. -/
def updateQuery (tableName : String) (id : ℚ) (data : List (String × SqlValue)) :
    SqlQuery :=
  { text := "UPDATE " ++ tableName ++ " SET " ++
      String.intercalate ", "
        ((data.map Prod.fst).enum.map
          (fun kv => kv.2 ++ " = $" ++ toString (kv.1 + 1))) ++
      ", updated_at = NOW() WHERE id = $" ++ toString (data.length + 1) ++
      " RETURNING *",
    params := data.map Prod.snd ++ [SqlValue.num id] }

/-- `BaseRepository.delete(id)`. -/
def deleteQuery (tableName : String) (id : ℚ) : SqlQuery :=
  { text := "DELETE FROM " ++ tableName ++ " WHERE id = $1",
    params := [SqlValue.num id] }

/-- `UserRepository.findByUsername` call site: the field is the fixed
code literal `'username'`; only the value comes from the client. -/
def findByUsernameQuery (username : String) : SqlQuery :=
  findByFieldQuery "users" "username" (SqlValue.str username)

/-- Test fixture: an items table holding 25 rows. -/
def twentyFiveItems : ItemDb :=
  List.replicate 25 ⟨1, "Item", none, 1, none, 1⟩

/-! ## Theorems -/

/-- Helper: a token issued by `generateToken` verifies under the same
secret and decodes to the user's id, username and email. -/
theorem verifyToken_generateToken (secret : String) (u : PublicUser) :
    verifyToken secret (generateToken secret u) =
      Except.ok ⟨u.id, u.username, u.email⟩ := by
  simp [verifyToken, generateToken, jwtSign, jwtVerify]

/-- C1: for every registration input whose username and email are not
already taken, `register` succeeds, the returned user object has no
password field, and verifying the returned token succeeds and yields
claims whose id, username and email equal those of the returned user. -/
theorem register_token_roundtrip (secret : String) (db : UserDb)
    (input : RegisterInput)
    (hu : usernameExists db input.username = false)
    (he : emailExists db input.email = false) :
    ∃ r db', register secret db input = (Except.ok r, db') ∧
      r.user.password = none ∧
      verifyToken secret r.token =
        Except.ok ⟨r.user.id, r.user.username, r.user.email⟩ := by
  refine
    ⟨⟨(userCreate db
        { username := input.username, email := input.email,
          password := bcryptHash input.password 10,
          firstName := jsOrNull input.firstName,
          lastName := jsOrNull input.lastName }).1,
      generateToken secret (userCreate db
        { username := input.username, email := input.email,
          password := bcryptHash input.password 10,
          firstName := jsOrNull input.firstName,
          lastName := jsOrNull input.lastName }).1⟩,
     (userCreate db
        { username := input.username, email := input.email,
          password := bcryptHash input.password 10,
          firstName := jsOrNull input.firstName,
          lastName := jsOrNull input.lastName }).2,
     ?_, rfl, verifyToken_generateToken _ _⟩
  simp [register, hu, he]

/-- C1 witness: registering a concrete user in an empty table. -/
theorem register_token_roundtrip_witness :
    ∃ r db', register "s" [] ⟨"alice", "alice@x.com", "secret1", none, none⟩ =
        (Except.ok r, db') ∧
      r.user.password = none ∧
      verifyToken "s" r.token =
        Except.ok ⟨r.user.id, r.user.username, r.user.email⟩ :=
  register_token_roundtrip "s" [] ⟨"alice", "alice@x.com", "secret1", none, none⟩
    rfl rfl

/-- C2: `login` with a username that does not exist, and `login` with an
existing username but a wrong password, both fail with the identical
`AppError('Invalid credentials', 401)` and leave the table unchanged. -/
theorem login_single_invalid_credentials (secret : String) (db : UserDb)
    (username password : String) (now : Nat)
    (h : findByUsername db username = none ∨
      ∃ u pw, findByUsername db username = some u ∧
        u.password = bcryptHash pw 10 ∧ password ≠ pw) :
    login secret db username password now =
      (Except.error ⟨"Invalid credentials", 401⟩, db) := by
  rcases h with h | ⟨u, pw, hfind, hpw, hne⟩
  · simp [login, h]
  · have hcmp : bcryptCompare password u.password = false := by
      rw [hpw]
      exact beq_eq_false_iff_ne.mpr hne.symm
    simp [login, hfind, hcmp]

/-- C2 witness: both failure shapes on a concrete one-user table. -/
theorem login_single_invalid_credentials_witness :
    login "s" [⟨1, "alice", "alice@x.com", bcryptHash "secret1" 10, none, none, none⟩]
        "bob" "whatever" 0 =
      (Except.error ⟨"Invalid credentials", 401⟩,
        [⟨1, "alice", "alice@x.com", bcryptHash "secret1" 10, none, none, none⟩]) ∧
    login "s" [⟨1, "alice", "alice@x.com", bcryptHash "secret1" 10, none, none, none⟩]
        "alice" "wrong" 0 =
      (Except.error ⟨"Invalid credentials", 401⟩,
        [⟨1, "alice", "alice@x.com", bcryptHash "secret1" 10, none, none, none⟩]) :=
  ⟨login_single_invalid_credentials "s" _ "bob" "whatever" 0 (Or.inl rfl),
   login_single_invalid_credentials "s" _ "alice" "wrong" 0
     (Or.inr ⟨_, "secret1", rfl, rfl, by decide⟩)⟩

/-- C3: whenever no item with the requested id exists or the item's
owner differs from the caller, both `updateItem` and `deleteItem` fail
with the single `AppError('Item not found or unauthorized', 404)` (never
a distinct 403) and leave the table unchanged — the combined
(id, ownerId) lookup misses before any mutation happens. -/
theorem ownership_mismatch_not_found (db : ItemDb) (id : Nat)
    (d : UpdatePayload) (userId : Nat)
    (h : ∀ it ∈ db, it.id = id → it.userId ≠ userId) :
    updateItem db id d userId =
      (Except.error ⟨"Item not found or unauthorized", 404⟩, db) ∧
    deleteItem db id userId =
      (Except.error ⟨"Item not found or unauthorized", 404⟩, db) := by
  have hfind : findByIdAndUserId db id userId = none := by
    apply List.find?_eq_none.mpr
    intro it hmem hc
    simp only [Bool.and_eq_true, beq_iff_eq] at hc
    exact h it hmem hc.1 hc.2
  exact ⟨by simp [updateItem, hfind], by simp [deleteItem, hfind]⟩

/-- C3 witness: user 2 touching user 1's item, and a missing id. -/
theorem ownership_mismatch_not_found_witness :
    updateItem [⟨5, "Desk", none, 10, none, 1⟩] 5 ⟨none, none, some 3, none⟩ 2 =
      (Except.error ⟨"Item not found or unauthorized", 404⟩,
        [⟨5, "Desk", none, 10, none, 1⟩]) ∧
    deleteItem [⟨5, "Desk", none, 10, none, 1⟩] 5 2 =
      (Except.error ⟨"Item not found or unauthorized", 404⟩,
        [⟨5, "Desk", none, 10, none, 1⟩]) :=
  ownership_mismatch_not_found [⟨5, "Desk", none, 10, none, 1⟩] 5
    ⟨none, none, some 3, none⟩ 2 (by decide)

/-- C8: after a successful registration, a second registration with the
same username fails with the 400 "Username already exists" conflict
regardless of its email, a second registration with the same email (and
an untaken username) fails with the 400 "Email already exists" conflict,
and when both are taken the username conflict is reported (the username
check runs first); in every conflict case the table is returned
unchanged and the error carries no token. -/
theorem duplicate_registration_conflict (secret : String) (db : UserDb)
    (in1 : RegisterInput) (r1 : AuthOk) (db1 : UserDb) (in2 : RegisterInput)
    (hok : register secret db in1 = (Except.ok r1, db1)) :
    (in2.username = in1.username →
      register secret db1 in2 =
        (Except.error ⟨"Username already exists", 400⟩, db1)) ∧
    (in2.email = in1.email → usernameExists db1 in2.username = false →
      register secret db1 in2 =
        (Except.error ⟨"Email already exists", 400⟩, db1)) ∧
    (in2.username = in1.username → in2.email = in1.email →
      register secret db1 in2 =
        (Except.error ⟨"Username already exists", 400⟩, db1)) := by
  unfold register at hok
  by_cases h1 : usernameExists db in1.username = true
  · simp [h1] at hok
  · by_cases h2 : emailExists db in1.email = true
    · simp [h1, h2] at hok
    · simp only [h1, h2, if_false, Bool.false_eq_true] at hok
      have hdb1 : db1 = db ++
          [{ id := nextUserId db, username := in1.username, email := in1.email,
             password := bcryptHash in1.password 10,
             firstName := jsOrNull in1.firstName,
             lastName := jsOrNull in1.lastName, lastLogin := none }] := by
        have := congrArg Prod.snd hok
        simpa [userCreate] using this.symm
      have huname : ∀ u : String, u = in1.username →
          usernameExists db1 u = true := by
        intro u hu
        rw [hdb1]
        simp [usernameExists, List.any_append, hu]
      have hemail : ∀ e : String, e = in1.email → emailExists db1 e = true := by
        intro e he
        rw [hdb1]
        simp [emailExists, List.any_append, he]
      refine ⟨fun hu => ?_, fun he hufree => ?_, fun hu _ => ?_⟩
      · simp [register, huname in2.username hu]
      · simp [register, hufree, hemail in2.email he]
      · simp [register, huname in2.username hu]

/-- C8 witness: a concrete duplicate-username registration. -/
theorem duplicate_registration_conflict_witness :
    register "s"
        [⟨1, "alice", "alice@x.com", bcryptHash "secret1" 10, none, none, none⟩]
        ⟨"alice", "other@x.com", "pw2", none, none⟩ =
      (Except.error ⟨"Username already exists", 400⟩,
        [⟨1, "alice", "alice@x.com", bcryptHash "secret1" 10, none, none, none⟩]) :=
  (duplicate_registration_conflict "s" []
      ⟨"alice", "alice@x.com", "secret1", none, none⟩
      ⟨⟨1, "alice", "alice@x.com", none, none, none, none⟩,
        jwtSign ⟨1, "alice", "alice@x.com"⟩ "s"⟩
      [⟨1, "alice", "alice@x.com", bcryptHash "secret1" 10, none, none, none⟩]
      ⟨"alice", "other@x.com", "pw2", none, none⟩ rfl).1 rfl

/-- C4 counterexample: an otherwise valid item whose price is 0 is
rejected by `createItemSchema` — Joi's `positive()` demands a value
strictly greater than zero, so the claim that price = 0 is accepted
fails on the code. -/
theorem create_item_price_zero_rejected :
    validateCreateItem ⟨some "Widget", none, some 0, none⟩ =
      Except.error ⟨"Price must be a positive number", 400⟩ := by
  rfl

/-- C4 (amended): item-creation validation accepts a price of 99.99 and
rejects the prices 0 and -1: the schema requires a strictly positive
price (`Joi.number().positive()`), not merely a nonnegative one. -/
theorem create_item_price_validation :
    validateCreateItem ⟨some "Widget", none, some 99.99, none⟩ =
      Except.ok ⟨some "Widget", none, some 99.99, none⟩ ∧
    validateCreateItem ⟨some "Widget", none, some 0, none⟩ =
      Except.error ⟨"Price must be a positive number", 400⟩ ∧
    validateCreateItem ⟨some "Widget", none, some (-1), none⟩ =
      Except.error ⟨"Price must be a positive number", 400⟩ := by
  refine ⟨?_, rfl, rfl⟩
  have hround : roundTo2 (99.99 : ℚ) = 99.99 := by
    norm_num [roundTo2]
  have hviol : createItemViolations ⟨some "Widget", none, some 99.99, none⟩ = [] := by
    have hq : ¬ (99.99 : ℚ) ≤ 0 := by norm_num
    have h3 : ¬ ("Widget".length < 3) := by decide
    have h100 : ¬ ("Widget".length > 100) := by decide
    simp [createItemViolations, nameViolations, descriptionViolations,
      priceViolations, categoryViolations, hq, h3, h100]
  simp [validateCreateItem, hviol, convertCreateItemBody, hround]

/-- C9: a create-item body that violates both the name-minimum (with a
nonempty name, so the min rule rather than Joi's base empty-string check
fires) and the price-positivity constraints is rejected with a single
400 `AppError`
whose message is the join of all collected violation messages
(`abortEarly: false`), and both constraints' messages are in the
collected list — not only the first one encountered. -/
theorem validation_reports_all_violations (b : CreateItemBody) (s : String)
    (q : ℚ) (hn : b.name = some s) (hne : s ≠ "") (hs : s.length < 3)
    (hp : b.price = some q) (hq : q ≤ 0) :
    validateCreateItem b =
      Except.error ⟨String.intercalate ", " (createItemViolations b), 400⟩ ∧
    "Item name must be at least 3 characters long" ∈ createItemViolations b ∧
    "Price must be a positive number" ∈ createItemViolations b := by
  have hname : "Item name must be at least 3 characters long" ∈
      createItemViolations b := by
    simp [createItemViolations, nameViolations, hn, hne, hs]
  have hprice : "Price must be a positive number" ∈ createItemViolations b := by
    simp [createItemViolations, nameViolations, priceViolations, hn, hp, hq]
  have hnonnil : createItemViolations b ≠ [] := by
    intro hnil
    rw [hnil] at hname
    exact List.not_mem_nil _ hname
  exact ⟨by simp [validateCreateItem, hnonnil], hname, hprice⟩

/-- C9 witness: name "ab" and price -1 violate two constraints at once. -/
theorem validation_reports_all_violations_witness :
    validateCreateItem ⟨some "ab", none, some (-1), none⟩ =
      Except.error ⟨String.intercalate ", "
        (createItemViolations ⟨some "ab", none, some (-1), none⟩), 400⟩ ∧
    "Item name must be at least 3 characters long" ∈
      createItemViolations ⟨some "ab", none, some (-1), none⟩ ∧
    "Price must be a positive number" ∈
      createItemViolations ⟨some "ab", none, some (-1), none⟩ :=
  validation_reports_all_violations ⟨some "ab", none, some (-1), none⟩
    "ab" (-1) rfl (by decide) (by decide) rfl (by norm_num)

/-- C5 counterexample: the `field` argument of `findByField` / `exists`
(and the table name) IS string-concatenated into the executed SQL text —
two different field arguments, with the same bound value, yield
different SQL strings, so the claim that the executed SQL is identical
across all inputs including the field and table arguments fails. -/
theorem sql_text_depends_on_field :
    (findByFieldQuery "users" "username" (SqlValue.str "x")).text ≠
      (findByFieldQuery "users" "email" (SqlValue.str "x")).text ∧
    (existsQuery "users" "username" (SqlValue.str "x")).text ≠
      (existsQuery "items" "username" (SqlValue.str "x")).text := by
  constructor <;> decide

/-- C5 (amended): every client-supplied *value* is passed out-of-band in
the parameter array and the executed SQL text is identical for any two
values — but the `field` argument of `findByField`/`exists`, the column
names of `create`/`update` and the table name are interpolated into the
text; at the repository call sites (such as `findByUsername`) those are
fixed code literals, so the call-site SQL is independent of the client
input. -/
theorem sql_values_always_bound :
    (∀ (t f : String) (v w : SqlValue),
      (findByFieldQuery t f v).text = (findByFieldQuery t f w).text) ∧
    (∀ (t f : String) (v : SqlValue), (findByFieldQuery t f v).params = [v]) ∧
    (∀ (t f : String) (v w : SqlValue),
      (existsQuery t f v).text = (existsQuery t f w).text) ∧
    (∀ (t f : String) (v : SqlValue), (existsQuery t f v).params = [v]) ∧
    (∀ (t : String) (i j : ℚ), (findByIdQuery t i).text = (findByIdQuery t j).text) ∧
    (∀ (t : String) (i j : ℚ), (deleteQuery t i).text = (deleteQuery t j).text) ∧
    (∀ (t : String) (d d' : List (String × SqlValue)),
      d.map Prod.fst = d'.map Prod.fst →
      (createQuery t d).text = (createQuery t d').text) ∧
    (∀ (t : String) (d : List (String × SqlValue)),
      (createQuery t d).params = d.map Prod.snd) ∧
    (∀ (t : String) (i j : ℚ) (d d' : List (String × SqlValue)),
      d.map Prod.fst = d'.map Prod.fst →
      (updateQuery t i d).text = (updateQuery t j d').text) ∧
    (∀ (t : String) (i : ℚ) (d : List (String × SqlValue)),
      (updateQuery t i d).params = d.map Prod.snd ++ [SqlValue.num i]) ∧
    (∀ u v : String, (findByUsernameQuery u).text = (findByUsernameQuery v).text) := by
  refine ⟨fun _ _ _ _ => rfl, fun _ _ _ => rfl, fun _ _ _ _ => rfl,
    fun _ _ _ => rfl, fun _ _ _ => rfl, fun _ _ _ => rfl,
    fun t d d' hkeys => ?_, fun _ _ => rfl,
    fun t i j d d' hkeys => ?_, fun _ _ _ => rfl, fun _ _ => rfl⟩
  · have hlen : d.length = d'.length := by
      simpa using congrArg List.length hkeys
    simp [createQuery, hkeys, hlen]
  · have hlen : d.length = d'.length := by
      simpa using congrArg List.length hkeys
    simp [updateQuery, hkeys, hlen]

/-- C5 amended witness: the key-equality hypotheses at concrete data. -/
theorem sql_values_always_bound_witness :
    (createQuery "items" [("name", SqlValue.str "Desk")]).text =
      (createQuery "items" [("name", SqlValue.str "Chair")]).text ∧
    (updateQuery "items" 1 [("price", SqlValue.num 5)]).text =
      (updateQuery "items" 2 [("price", SqlValue.num 7)]).text :=
  ⟨sql_values_always_bound.2.2.2.2.2.2.1 "items"
      [("name", SqlValue.str "Desk")] [("name", SqlValue.str "Chair")] rfl,
   sql_values_always_bound.2.2.2.2.2.2.2.2.1 "items" 1 2
      [("price", SqlValue.num 5)] [("price", SqlValue.num 7)] rfl⟩

/-- C6: a partial update touches only the provided fields — under both
the SQL `BaseRepository.update` (SET clause built from the provided
keys) and the Prisma `ItemsRepository.update`, a field omitted from the
payload keeps its value, and a price-only payload leaves `name`,
`description` and `category` unchanged; lifted through
`ItemsService.updateItem`, a successful price-only update returns the
stored row with its `name`, `description` and `category` intact. -/
theorem partial_update_preserves_omitted_fields :
    (∀ (row : Item) (d : UpdatePayload), d.name = none →
      (sqlApplyUpdate row d).name = row.name ∧
      (prismaApplyUpdate row d).name = row.name) ∧
    (∀ (row : Item) (d : UpdatePayload), d.description = none →
      (sqlApplyUpdate row d).description = row.description ∧
      (prismaApplyUpdate row d).description = row.description) ∧
    (∀ (row : Item) (d : UpdatePayload), d.category = none →
      (sqlApplyUpdate row d).category = row.category ∧
      (prismaApplyUpdate row d).category = row.category) ∧
    (∀ (row : Item) (q : ℚ),
      (sqlApplyUpdate row ⟨none, none, some q, none⟩).name = row.name ∧
      (sqlApplyUpdate row ⟨none, none, some q, none⟩).description = row.description ∧
      (sqlApplyUpdate row ⟨none, none, some q, none⟩).category = row.category ∧
      (prismaApplyUpdate row ⟨none, none, some q, none⟩).name = row.name ∧
      (prismaApplyUpdate row ⟨none, none, some q, none⟩).description = row.description ∧
      (prismaApplyUpdate row ⟨none, none, some q, none⟩).category = row.category) ∧
    (∀ (db db' : ItemDb) (id userId : Nat) (q : ℚ) (row' : Item),
      updateItem db id ⟨none, none, some q, none⟩ userId = (Except.ok row', db') →
      ∃ old, db.find? (fun it => it.id == id) = some old ∧
        row'.name = old.name ∧ row'.description = old.description ∧
        row'.category = old.category) := by
  refine ⟨fun row d h => ?_, fun row d h => ?_, fun row d h => ?_,
    fun row q => ?_, fun db db' id userId q row' hok => ?_⟩
  · exact ⟨by simp [sqlApplyUpdate, h], by simp [prismaApplyUpdate, h]⟩
  · exact ⟨by simp [sqlApplyUpdate, h], by simp [prismaApplyUpdate, h]⟩
  · exact ⟨by simp [sqlApplyUpdate, h], by simp [prismaApplyUpdate, h]⟩
  · exact ⟨rfl, rfl, rfl, rfl, rfl, rfl⟩
  · unfold updateItem at hok
    cases hfa : findByIdAndUserId db id userId with
    | none => rw [hfa] at hok; simp at hok
    | some hit =>
      rw [hfa] at hok
      unfold itemsRepoUpdate at hok
      cases hf : db.find? (fun it => it.id == id) with
      | none => rw [hf] at hok; simp at hok
      | some old =>
        rw [hf] at hok
        simp only [Prod.mk.injEq, Except.ok.injEq] at hok
        refine ⟨old, rfl, ?_, ?_, ?_⟩ <;>
          rw [← hok.1] <;> simp [prismaApplyUpdate]

/-- C6 witness: a concrete price-only update through the service. -/
theorem partial_update_preserves_omitted_fields_witness :
    ∃ old, ([⟨5, "Desk", some "wood", 10, some "office", 1⟩] : ItemDb).find?
        (fun it => it.id == 5) = some old ∧
      (⟨5, "Desk", some "wood", 49, some "office", 1⟩ : Item).name = old.name ∧
      (⟨5, "Desk", some "wood", 49, some "office", 1⟩ : Item).description =
        old.description ∧
      (⟨5, "Desk", some "wood", 49, some "office", 1⟩ : Item).category =
        old.category :=
  partial_update_preserves_omitted_fields.2.2.2.2
    [⟨5, "Desk", some "wood", 10, some "office", 1⟩]
    [⟨5, "Desk", some "wood", 49, some "office", 1⟩] 5 1 49
    ⟨5, "Desk", some "wood", 49, some "office", 1⟩ (by rfl)

/-- C7: for every page ≥ 1 and page size ≥ 1, `findWithPagination`
returns the slice of the table at offset `(page - 1) * limit` of length
at most `limit`, reports the total row count, and reports
`totalPages = ⌈total / limit⌉` (Mathlib ceiling division, with its least
upper bound characterisation spelled out); with 25 stored items, page 2
at page size 10 holds exactly 10 items and 3 total pages. -/
theorem pagination_slice_and_total_pages (db : ItemDb) (page limit : Nat)
    (_hp : 1 ≤ page) (hl : 1 ≤ limit) :
    (findWithPagination db page limit).items =
      (db.drop ((page - 1) * limit)).take limit ∧
    (findWithPagination db page limit).items.length ≤ limit ∧
    (findWithPagination db page limit).pagination.total = db.length ∧
    (findWithPagination db page limit).pagination.totalPages =
      db.length ⌈/⌉ limit ∧
    db.length ≤ (findWithPagination db page limit).pagination.totalPages * limit ∧
    (∀ m, db.length ≤ m * limit →
      (findWithPagination db page limit).pagination.totalPages ≤ m) ∧
    (findWithPagination twentyFiveItems 2 10).items.length = 10 ∧
    (findWithPagination twentyFiveItems 2 10).pagination.totalPages = 3 := by
  have hlpos : 0 < limit := hl
  have hceil : (findWithPagination db page limit).pagination.totalPages =
      db.length ⌈/⌉ limit := by
    rw [Nat.ceilDiv_eq_add_pred_div]
    rfl
  refine ⟨rfl, ?_, rfl, hceil, ?_, fun m hm => ?_, by decide, by decide⟩
  · simp only [findWithPagination]
    exact List.length_take_le limit _
  · rw [hceil, mul_comm]
    simpa [smul_eq_mul] using le_smul_ceilDiv (b := db.length) hlpos
  · rw [hceil]
    exact (ceilDiv_le_iff_le_mul hlpos).mpr (by rwa [mul_comm] at hm)

/-- C7 witness: the 25-item fixture at page 2, page size 10. -/
theorem pagination_slice_and_total_pages_witness :
    (findWithPagination twentyFiveItems 2 10).items =
      (twentyFiveItems.drop 10).take 10 ∧
    (findWithPagination twentyFiveItems 2 10).items.length = 10 ∧
    (findWithPagination twentyFiveItems 2 10).pagination.totalPages = 3 :=
  ⟨(pagination_slice_and_total_pages twentyFiveItems 2 10
      (by decide) (by decide)).1,
   (pagination_slice_and_total_pages twentyFiveItems 2 10
      (by decide) (by decide)).2.2.2.2.2.2.1,
   (pagination_slice_and_total_pages twentyFiveItems 2 10
      (by decide) (by decide)).2.2.2.2.2.2.2⟩

/-- C10: in the Prisma repository update, `name` and `price` are applied
only when truthy — a payload of `{price: 0}` or `{name: ""}` leaves the
row entirely unchanged — while a `description` or `category` provided as
anything other than `undefined` (including `null` and the empty string)
is applied; consequently no update through this path can ever set a
nonzero price to 0. -/
theorem prisma_update_truthiness :
    (∀ row : Item, prismaApplyUpdate row ⟨none, none, some 0, none⟩ = row) ∧
    (∀ row : Item, prismaApplyUpdate row ⟨some "", none, none, none⟩ = row) ∧
    (∀ (row : Item) (d : UpdatePayload) (v : Option String),
      d.description = some v → (prismaApplyUpdate row d).description = v) ∧
    (∀ (row : Item) (d : UpdatePayload) (v : Option String),
      d.category = some v → (prismaApplyUpdate row d).category = v) ∧
    (∀ (row : Item) (d : UpdatePayload),
      (prismaApplyUpdate row d).price = 0 → row.price = 0) := by
  refine ⟨fun row => by simp [prismaApplyUpdate], fun row => by simp [prismaApplyUpdate],
    fun row d v h => by simp [prismaApplyUpdate, h],
    fun row d v h => by simp [prismaApplyUpdate, h],
    fun row d h => ?_⟩
  rcases hd : d.price with _ | q
  · simp only [prismaApplyUpdate, hd] at h
    exact h
  · by_cases hq : q = 0
    · simp only [prismaApplyUpdate, hd, hq] at h
      simpa using h
    · simp only [prismaApplyUpdate, hd] at h
      rw [if_pos hq] at h
      exact absurd h hq

/-- C10 witness: concrete zero-price, empty-name and null-description
updates. -/
theorem prisma_update_truthiness_witness :
    prismaApplyUpdate ⟨5, "Desk", some "wood", 10, some "office", 1⟩
        ⟨none, none, some 0, none⟩ =
      ⟨5, "Desk", some "wood", 10, some "office", 1⟩ ∧
    prismaApplyUpdate ⟨5, "Desk", some "wood", 10, some "office", 1⟩
        ⟨some "", none, none, none⟩ =
      ⟨5, "Desk", some "wood", 10, some "office", 1⟩ ∧
    (prismaApplyUpdate ⟨5, "Desk", some "wood", 10, some "office", 1⟩
        ⟨none, some none, none, none⟩).description = none :=
  ⟨prisma_update_truthiness.1 _, prisma_update_truthiness.2.1 _,
   prisma_update_truthiness.2.2.1 _ ⟨none, some none, none, none⟩ none rfl⟩

end Whh32
